import Mathlib

/-!
Shallow embedding of the openwapi WhatsApp-bridge core: the auth middleware and
timing-safe comparison from src/api/routes.js, the API-key provisioning logic
from src/database/index.js, the webhook dispatcher and message-ingestion
handler from the WhatsApp client module, and the connection-lifecycle state
machine driven by the connection.update handler and the POST /logout route.

JavaScript strings are modelled as Lean `String`s; the secrets compared by the
middleware are ASCII, where JS `.length` (UTF-16 units) and the UTF-8 byte
buffers compared by `crypto.timingSafeEqual` coincide with Lean characters.
Possibly-missing JS values (`undefined`/`null`) are `Option`s, and JS string
truthiness (empty string is falsy) is made explicit via `jsStr`.
-/

/-- Truthiness of a possibly-missing JS string: `undefined`, `null` and the
empty string are falsy; every other string is truthy. -/
def jsStr : Option String → Bool
  | none => false
  | some s => !s.isEmpty

/-- JS `a || b` specialised to an optional string on the left: yields the left
operand when it is truthy, otherwise the right operand. -/
def jsOrStr (a : Option String) (b : String) : String :=
  match a with
  | some s => if s.isEmpty then b else s
  | none => b

/-- Suffix test over character lists (the character-level semantics of JS
`String.prototype.endsWith`). -/
def listEndsWith (s pat : List Char) : Bool :=
  List.isPrefixOf pat.reverse s.reverse

/-- JS `String.prototype.endsWith`. -/
def strEndsWith (s pat : String) : Bool :=
  listEndsWith s.toList pat.toList

/-- Substring search over character lists (the character-level semantics of
JS `String.prototype.includes`). -/
def listContainsSub (s pat : List Char) : Bool :=
  match s with
  | [] => pat.isEmpty
  | _ :: rest => List.isPrefixOf pat s || listContainsSub rest pat

/-- JS `String.prototype.includes`. -/
def containsSub (s pat : String) : Bool :=
  listContainsSub s.toList pat.toList

/-- JS `String.prototype.split` with a single-character separator: always
yields at least one (possibly empty) piece. -/
def splitOnChar (c : Char) : List Char → List (List Char)
  | [] => [[]]
  | x :: xs =>
      let r := splitOnChar c xs
      if x == c then [] :: r
      else
        match r with
        | [] => [[x]]
        | y :: ys => (x :: y) :: ys

/-- JS `s.split(c)` on a string, as a list of strings. -/
def strSplitOn (c : Char) (s : String) : List String :=
  (splitOnChar c s.toList).map (fun l => String.mk l)

/-!
## AuthGateway (src/api/routes.js)

`timingSafeCompare(a, b)` returns false when either operand is falsy or the
lengths differ, and otherwise compares the two buffers byte for byte with
`crypto.timingSafeEqual`, which on equal-length buffers is exactly equality.
-/

/-- `timingSafeCompare` from src/api/routes.js lines 23-32. -/
def timingSafeCompare (a b : Option String) : Bool :=
  match a, b with
  | some sa, some sb =>
      if sa.isEmpty || sb.isEmpty || sa.length != sb.length then false
      else sa == sb
  | _, _ => false

/-- Outcome of the API-key middleware: the three early-return rejections and
the `next()` call that admits the request. -/
inductive ApiAuthResult where
  | keyRequired
  | notConfigured
  | invalidKey
  | admitted
  deriving DecidableEq, Repr

/-- `authenticateApiKey` from src/api/routes.js lines 39-72: `suppliedKey` is
the `x-api-key` header (`none` when absent) and `storedKey` is the key column
of the row returned by `getApiKey` (`none` when no row exists). -/
def authenticateApiKey (suppliedKey : Option String) (storedKey : Option String) :
    ApiAuthResult :=
  if !(jsStr suppliedKey) then ApiAuthResult.keyRequired
  else
    match storedKey with
    | none => ApiAuthResult.notConfigured
    | some k =>
        if timingSafeCompare suppliedKey (some k) then ApiAuthResult.admitted
        else ApiAuthResult.invalidKey

/-- Outcome of the basic-auth middleware: a 401 carrying a `WWW-Authenticate`
challenge, or the `next()` call that admits the request. -/
inductive BasicAuthResult where
  | challenge
  | admitted
  deriving DecidableEq, Repr

/-- `authenticateBasicAuth` from src/api/routes.js lines 79-110, taken from
the point where the base64 payload of the `Authorization` header has been
decoded: `decodedCredentials` is that decoded `user:pass` string (`none` when
the header is missing or does not start with `Basic `).  The JS destructuring
`const [username, password] = credentials.split(':')` makes `username` the
first piece and `password` the second piece or `undefined`. -/
def authenticateBasicAuth (decodedCredentials : Option String)
    (cfgUser cfgPassword : String) : BasicAuthResult :=
  match decodedCredentials with
  | none => BasicAuthResult.challenge
  | some creds =>
      let parts := strSplitOn ':' creds
      let username := some (parts.headD "")
      let password := parts[1]?
      if timingSafeCompare username (some cfgUser) &&
          timingSafeCompare password (some cfgPassword) then
        BasicAuthResult.admitted
      else
        BasicAuthResult.challenge

/-!
## API-key provisioning (src/database/index.js)

The `api_keys` table is modelled as a list of keys, newest first, so that
`getApiKey`'s `ORDER BY created_at DESC LIMIT 1` is the head of the list.
`ensureApiKey` is parametric in the freshly generated random key so that the
call to `crypto.randomBytes` stays outside the model.
-/

/-- The slice of the SQLite database that API-key provisioning touches. -/
structure Db where
  apiKeys : List String
  deriving DecidableEq, Repr

/-- `getApiKey` from src/database/index.js lines 133-140: the most recently
created key, or `none` when the table is empty. -/
def getApiKey (db : Db) : Option String :=
  db.apiKeys.head?

/-- `ensureApiKey` from src/database/index.js lines 147-165: return the
existing key when one is stored, otherwise insert `freshKey` (the base64 of 32
random bytes) and return it.  Yields the returned key and the updated
database. -/
def ensureApiKey (db : Db) (freshKey : String) : String × Db :=
  match getApiKey db with
  | some k => (k, db)
  | none => (freshKey, { db with apiKeys := freshKey :: db.apiKeys })

/-!
## WebhookDispatcher (`callWebhook` in the WhatsApp client module)

The single `fetch` either resolves to a response with an HTTP status or
rejects (timeout via `AbortSignal.timeout(5000)`, connection failure, or any
other transport error); the `try`/`catch` around it absorbs the rejection.
The embedding returns `Except String DispatchTrace` so that an error escaping
to the invoker would show up as `Except.error`.
-/

/-- Resolution of the one `fetch` call: an HTTP response status, or a
transport-level rejection (timeout, connection failure, ...). -/
inductive FetchOutcome where
  | response (status : Nat)
  | transportError (msg : String)
  deriving DecidableEq, Repr

/-- One HTTP request as issued by `callWebhook`: method POST, JSON body, and
the 5000 ms `AbortSignal` timeout. -/
structure WebhookRequest where
  url : String
  method : String
  body : String
  timeoutMs : Nat
  deriving DecidableEq, Repr

/-- Severity of a logger call made by `callWebhook`. -/
inductive LogLevel where
  | info
  | warn
  | error
  deriving DecidableEq, Repr

/-- Observable behaviour of one `callWebhook` invocation: the requests it
issued and the log entries it emitted. -/
structure DispatchTrace where
  requests : List WebhookRequest
  logs : List LogLevel
  deriving DecidableEq, Repr

/-- `response.ok`: status in the inclusive range 200-299. -/
def responseOk (status : Nat) : Bool :=
  200 ≤ status && status < 300

/-- The one `fetch(url, {method: POST, body, signal: AbortSignal.timeout(5000)})`
call inside `callWebhook`: the issued request paired with its resolution. -/
def fetchPost (url body : String) (outcome : FetchOutcome) :
    WebhookRequest × Except String Nat :=
  (⟨url, "POST", body, 5000⟩,
   match outcome with
   | FetchOutcome.response st => Except.ok st
   | FetchOutcome.transportError m => Except.error m)

/-- `callWebhook` from the WhatsApp client module lines 15-34: one POST
attempt; `!response.ok` is logged as a warning, success as info, and the
`catch` clause logs any transport error — nothing is rethrown and nothing is
retried. -/
def callWebhook (url body : String) (outcome : FetchOutcome) :
    Except String DispatchTrace :=
  let attempt := fetchPost url body outcome
  match attempt.2 with
  | Except.ok st =>
      Except.ok
        { requests := [attempt.1],
          logs := [if responseOk st then LogLevel.info else LogLevel.warn] }
  | Except.error _ =>
      Except.ok { requests := [attempt.1], logs := [LogLevel.error] }

/-!
## MessageIngestionPipeline (`messages.upsert` handler, WhatsApp client module)

One raw inbound Baileys message.  `msg.message` is the optional payload
(`content` below); within it, `conversation`, `extendedTextMessage?.text` and
`imageMessage` with its optional `caption` are the fields the handler reads.
The media download is a suspension whose outcome we pass in as `downloadOk`,
and the row id assigned by the INSERT is passed in as `assignedId` so that the
post-insert `media_url` UPDATE (filename `{id}.jpg`) can be reflected in the
final persisted record.
-/

/-- `msg.message.imageMessage`: an image payload with an optional caption. -/
structure ImageMessage where
  caption : Option String
  deriving DecidableEq, Repr

/-- `msg.message`: the three payload fields the handler reads. -/
structure MsgContent where
  conversation : Option String
  extendedText : Option String
  imageMessage : Option ImageMessage
  deriving DecidableEq, Repr

/-- `msg.key`: sender address, optional participant address, own-echo flag. -/
structure MsgKey where
  remoteJid : Option String
  participant : Option String
  fromMe : Bool
  deriving DecidableEq, Repr

/-- One element of the `messages.upsert` batch. -/
structure InboundMsg where
  key : MsgKey
  content : Option MsgContent
  pushName : Option String
  deriving DecidableEq, Repr

/-- The counterparty-identity resolution at the top of the handler: start from
`msg.key.remoteJid`; when it is truthy and ends in `@lid` and the participant
is truthy and includes `@s.whatsapp.net`, substitute the participant. -/
def resolveFrom (k : MsgKey) : Option String :=
  match k.remoteJid with
  | none => none
  | some f =>
      if !f.isEmpty && strEndsWith f "@lid" then
        match k.participant with
        | some p =>
            if !p.isEmpty && containsSub p "@s.whatsapp.net" then some p
            else some f
        | none => some f
      else some f

/-- The text extraction
`msg.message.conversation || msg.message.extendedTextMessage?.text || imageMessage?.caption || ''`,
with JS `||` falling through empty strings. -/
def extractText (c : MsgContent) : String :=
  jsOrStr c.conversation
    (jsOrStr c.extendedText (jsOrStr (c.imageMessage.bind ImageMessage.caption) ""))

/-- The persisted `messages` row as it stands after the handler finishes
(including the `media_url` UPDATE that follows a successful download). -/
structure StoredMessage where
  direction : String
  phone : Option String
  senderName : Option String
  text : String
  status : String
  mediaType : String
  mediaUrl : Option String
  deriving DecidableEq, Repr

/-- The per-message body of the `messages.upsert` handler: `none` when the
message is skipped (no payload, own echo, or neither text nor image), and
otherwise the message row as persisted.  `downloadOk` is whether
`downloadMediaMessage` resolved; on rejection the `catch` leaves `mediaType`
as `'text'` and the buffer null, so no file is written and no UPDATE runs. -/
def ingestMessage (msg : InboundMsg) (downloadOk : Bool) (assignedId : Nat) :
    Option StoredMessage :=
  match msg.content with
  | none => none
  | some content =>
      let from_ := resolveFrom msg.key
      let text := extractText content
      if !msg.key.fromMe && (!text.isEmpty || content.imageMessage.isSome) then
        let downloaded := content.imageMessage.isSome && downloadOk
        let mediaType := if downloaded then "image" else "text"
        let mediaUrl := if downloaded then some (toString assignedId ++ ".jpg") else none
        let senderName := if jsStr msg.pushName then msg.pushName else none
        some
          { direction := "incoming", phone := from_, senderName := senderName,
            text := text, status := "unread", mediaType := mediaType,
            mediaUrl := mediaUrl }
      else none

/-!
## ConnectionManager (connection.update handler and POST /logout)

The `WhatsAppState` class lives in `src/api/state.js`, which is not part of
the sources here; its fields and setters are modelled from the spec.
Modelled from the spec: ConnectionState holds `status`-bearing fields
`connected`/`identity` (the `setConnected(connected, phone)` setter),
`pairingPayload` (the `setQrCode` setter), and the opaque session handle (the
`setSock` setter); `sockLive` records whether the handle is non-null.

The three-valued status of the spec is derived: `Connected` when the
connected flag is set, else `AwaitingPairing` when pairing material is
present, else `Disconnected` — which is exactly how the API surfaces it
(`/qr` answers 400 `already connected` on the flag and serves `qrCode`
otherwise).
-/

/-- ConnectionState as observed through the spec-modelled `WhatsAppState`. -/
structure ConnState where
  connected : Bool
  phone : Option String
  qrCode : Option String
  sockLive : Bool
  deriving DecidableEq, Repr

/-- The spec's three-valued connection status. -/
inductive ConnStatus where
  | Disconnected
  | AwaitingPairing
  | Connected
  deriving DecidableEq, Repr

/-- Derived status of a `ConnState`. -/
def ConnState.status (s : ConnState) : ConnStatus :=
  if s.connected then ConnStatus.Connected
  else if s.qrCode.isSome then ConnStatus.AwaitingPairing
  else ConnStatus.Disconnected

/-- The `connection` field of a `connection.update` event: `'close'` (with
whether the disconnect reason was `DisconnectReason.loggedOut`) or `'open'`. -/
inductive ConnSignal where
  | closeSig (loggedOut : Bool)
  | openSig
  deriving DecidableEq, Repr

/-- The `connection.update` handler from the WhatsApp client module lines
81-120.  `qr` is the pairing token (rendered into a data URL and stored;
`qrGenOk` is whether `QRCode.toDataURL` resolved — on rejection the catch
leaves the stored code unchanged).  `userId` is the value of `sock.user?.id`
at the time an `'open'` signal is processed; the stored phone is its prefix
before the first `:`. -/
def applyUpdate (s : ConnState) (qr : Option String) (qrGenOk : Bool)
    (conn : Option ConnSignal) (userId : Option String) : ConnState :=
  let s1 := if jsStr qr && qrGenOk then { s with qrCode := qr } else s
  match conn with
  | some (ConnSignal.closeSig loggedOut) =>
      let s2 := { s1 with connected := false, phone := none }
      if loggedOut then { s2 with qrCode := none } else s2
  | some ConnSignal.openSig =>
      { s1 with connected := true,
                phone := userId.map (fun u => (strSplitOn ':' u).headD ""),
                qrCode := none }
  | none => s1

/-- Whether `sock.logout()` resolved or threw inside the POST /logout try
block. -/
inductive LogoutOutcome where
  | ok
  | throws
  deriving DecidableEq, Repr

/-- The observable response and side effects of one POST /logout request. -/
structure LogoutResponse where
  httpStatus : Nat
  message : String
  terminateInvoked : Bool
  sessionPurged : Bool
  reconnectScheduled : Bool
  deriving DecidableEq, Repr

/-- The POST /logout handler from src/api/routes.js lines 195-237 (behind the
API-key middleware): guard on `!whatsappState.sock`; on success reset the
connected flag and phone, null the handle, delete the session folder, and
schedule `reconnectFn` after 3000 ms; when `sock.logout()` throws, answer 500
with none of the subsequent effects. -/
def postLogout (s : ConnState) (outcome : LogoutOutcome) (reconnectFnSet : Bool) :
    ConnState × LogoutResponse :=
  if !s.sockLive then
    (s, ⟨400, "Not connected", false, false, false⟩)
  else
    match outcome with
    | LogoutOutcome.ok =>
        ({ s with connected := false, phone := none, sockLive := false },
         ⟨200, "Logged out successfully. Reconnecting to generate new QR code...",
          true, true, reconnectFnSet⟩)
    | LogoutOutcome.throws =>
        (s, ⟨500, "Logout failed", true, false, false⟩)

/-- One unit of activity against the connection state: a (re)connection
attempt (`connectToWhatsApp` installs a fresh socket via `setSock`), one
`connection.update` event, or one authenticated POST /logout request. -/
inductive WAEvent where
  | connect
  | update (qr : Option String) (qrGenOk : Bool) (conn : Option ConnSignal)
      (userId : Option String)
  | apiLogout (outcome : LogoutOutcome) (reconnectFnSet : Bool)
  deriving DecidableEq, Repr

/-- Effect of one event on the connection state. -/
def applyEvent (s : ConnState) (e : WAEvent) : ConnState :=
  match e with
  | WAEvent.connect => { s with sockLive := true }
  | WAEvent.update qr qrGenOk conn userId => applyUpdate s qr qrGenOk conn userId
  | WAEvent.apiLogout outcome reconnectFnSet => (postLogout s outcome reconnectFnSet).1

/-- The initial state: `new WhatsAppState()` before the initial
`connectToWhatsApp` call — disconnected, no identity, no pairing material, no
socket. -/
def initState : ConnState :=
  ⟨false, none, none, false⟩

/-- States reachable from the initial state through the handlers, with the
environment free to deliver any event sequence. -/
inductive Reachable : ConnState → Prop where
  | init : Reachable initState
  | step (s : ConnState) (e : WAEvent) : Reachable s → Reachable (applyEvent s e)

/-- States reachable when the transport behaves as the protocol promises:
pairing tokens are only delivered while the connected flag is down, and every
`'open'` signal carries a session user id. -/
inductive ReachableOk : ConnState → Prop where
  | init : ReachableOk initState
  | connect (s : ConnState) : ReachableOk s → ReachableOk (applyEvent s WAEvent.connect)
  | update (s : ConnState) (qr : Option String) (qrGenOk : Bool)
      (conn : Option ConnSignal) (userId : Option String) :
      ReachableOk s →
      (jsStr qr = true → s.connected = false) →
      (conn = some ConnSignal.openSig → userId.isSome) →
      ReachableOk (applyEvent s (WAEvent.update qr qrGenOk conn userId))
  | logout (s : ConnState) (outcome : LogoutOutcome) (reconnectFnSet : Bool) :
      ReachableOk s → ReachableOk (applyEvent s (WAEvent.apiLogout outcome reconnectFnSet))

/-- The spec's ConnectionState invariant: identity is non-null iff the status
is `Connected`, and pairing material is non-null only while the status is
`AwaitingPairing`. -/
def connInv (s : ConnState) : Prop :=
  (s.phone.isSome ↔ s.status = ConnStatus.Connected) ∧
  (s.qrCode.isSome → s.status = ConnStatus.AwaitingPairing)

instance (s : ConnState) : Decidable (connInv s) := by
  unfold connInv
  infer_instance

/-- A state that refutes the invariant as stated over all handler-reachable
states: the initial connect installs the socket, then an `'open'` update whose
socket has no user (`sock.user?.id` is `undefined`, an eventuality the
handler's optional chaining anticipates) sets the connected flag with a null
phone. -/
def noUserOpenState : ConnState :=
  applyEvent (applyEvent initState WAEvent.connect)
    (WAEvent.update none true (some ConnSignal.openSig) none)

/-- A well-behaved state used to witness the amended invariant: connect, then
a pairing token while disconnected. -/
def pairingState : ConnState :=
  applyEvent (applyEvent initState WAEvent.connect)
    (WAEvent.update (some "qr-token") true none none)

/-- A state with a live socket but status `Disconnected`: connect, open with a
user, then a transient close — the close handler clears the connected flag and
phone but leaves the stale socket in place. -/
def staleSockState : ConnState :=
  applyEvent
    (applyEvent (applyEvent initState WAEvent.connect)
      (WAEvent.update none true (some ConnSignal.openSig)
        (some "15551234567:1@s.whatsapp.net")))
    (WAEvent.update none true (some (ConnSignal.closeSig false)) none)

/-!
## Theorems
-/

theorem jsOrStr_eq (a : Option String) (b : String) :
    jsOrStr a b = if jsStr a then a.getD "" else b := by
  cases a with
  | none => rfl
  | some s =>
      by_cases hs : s.isEmpty <;> simp [jsOrStr, jsStr, hs]

theorem status_not_connected (s : ConnState) (h : s.connected = false) :
    s.status ≠ ConnStatus.Connected := by
  simp only [ConnState.status, h]
  simp only [Bool.false_eq_true, if_false]
  split <;> simp

theorem status_awaiting (s : ConnState) (h : s.connected = false)
    (hq : s.qrCode.isSome = true) : s.status = ConnStatus.AwaitingPairing := by
  simp [ConnState.status, h, hq]

theorem connInv_down (s : ConnState) (hc : s.connected = false)
    (hp : s.phone.isSome = false) : connInv s := by
  constructor
  · rw [hp]
    simp only [Bool.false_eq_true, false_iff]
    exact status_not_connected s hc
  · intro hq
    exact status_awaiting s hc hq

theorem connInv_up (s : ConnState) (hc : s.connected = true)
    (hp : s.phone.isSome = true) (hq : s.qrCode = none) : connInv s := by
  constructor
  · simp [hp, ConnState.status, hc]
  · intro h
    rw [hq] at h
    simp at h

theorem phone_none_of_down (s : ConnState) (h : connInv s)
    (hc : s.connected = false) : s.phone.isSome = false :=
  Bool.eq_false_iff.mpr (fun ht => status_not_connected s hc (h.1.mp ht))

/-- Claim C9: API-key provisioning is idempotent — two successive
`ensureApiKey` calls return the same key, the second call leaves the stored
keys untouched, and after the first call the stored key is the returned one. -/
theorem ensureApiKey_idempotent (db : Db) (k1 k2 : String) :
    (ensureApiKey (ensureApiKey db k1).2 k2).1 = (ensureApiKey db k1).1 ∧
    (ensureApiKey (ensureApiKey db k1).2 k2).2 = (ensureApiKey db k1).2 ∧
    getApiKey (ensureApiKey db k1).2 = some (ensureApiKey db k1).1 := by
  rcases db with ⟨keys⟩
  cases keys <;> simp [ensureApiKey, getApiKey]

/-- Claim C7: shared-secret auth symmetry — for every non-empty stored
secret, a supplied secret of a different length is rejected, a supplied
secret of equal length differing from it is rejected, and the stored secret
itself is admitted. -/
theorem auth_symmetry (k a b : String) (hk : k ≠ "")
    (hlen : a.length ≠ k.length) (hblen : b.length = k.length) (hbne : b ≠ k) :
    authenticateApiKey (some a) (some k) ≠ ApiAuthResult.admitted ∧
    authenticateApiKey (some b) (some k) ≠ ApiAuthResult.admitted ∧
    authenticateApiKey (some k) (some k) = ApiAuthResult.admitted := by
  have hke : k.isEmpty = false :=
    Bool.eq_false_iff.mpr (fun h => hk ((String.isEmpty_iff k).mp h))
  refine ⟨?_, ?_, ?_⟩
  · by_cases ha : a.isEmpty = true <;>
      simp [authenticateApiKey, jsStr, timingSafeCompare, ha, hlen]
  · by_cases hb : b.isEmpty = true <;>
      simp [authenticateApiKey, jsStr, timingSafeCompare, hb, hke, hblen, hbne]
  · simp [authenticateApiKey, jsStr, timingSafeCompare, hke]

/-- Concrete instance of the auth-symmetry property. -/
theorem auth_symmetry_witness :
    authenticateApiKey (some "xy") (some "secret") ≠ ApiAuthResult.admitted ∧
    authenticateApiKey (some "secreX") (some "secret") ≠ ApiAuthResult.admitted ∧
    authenticateApiKey (some "secret") (some "secret") = ApiAuthResult.admitted :=
  auth_symmetry "secret" "xy" "secreX" (by decide) (by decide) (by decide) (by decide)

/-- Claim C10: an empty (or missing) operand makes `timingSafeCompare` return
false, so both middlewares reject whenever the supplied or the configured
value is the empty string — even when the two values are equal. -/
theorem empty_secret_rejected (a st : Option String) (u p creds : String) :
    timingSafeCompare none a = false ∧
    timingSafeCompare a none = false ∧
    timingSafeCompare (some "") a = false ∧
    timingSafeCompare a (some "") = false ∧
    authenticateApiKey (some "") st ≠ ApiAuthResult.admitted ∧
    authenticateApiKey a (some "") ≠ ApiAuthResult.admitted ∧
    authenticateBasicAuth (some creds) "" p ≠ BasicAuthResult.admitted ∧
    authenticateBasicAuth (some creds) u "" ≠ BasicAuthResult.admitted ∧
    authenticateBasicAuth (some ":") "" "" ≠ BasicAuthResult.admitted := by
  have hemp : "".isEmpty = true := rfl
  have hre : ∀ x : Option String, timingSafeCompare x (some "") = false := by
    intro x
    cases x with
    | none => rfl
    | some s => simp [timingSafeCompare, hemp]
  have hle : ∀ x : Option String, timingSafeCompare (some "") x = false := by
    intro x
    cases x with
    | none => rfl
    | some s => simp [timingSafeCompare, hemp]
  refine ⟨?_, ?_, hle a, hre a, ?_, ?_, ?_, ?_, by decide⟩
  · cases a <;> rfl
  · cases a <;> rfl
  · simp [authenticateApiKey, jsStr, hemp]
  · cases a with
    | none => simp [authenticateApiKey, jsStr]
    | some s =>
        by_cases hs : s.isEmpty = true <;>
          simp [authenticateApiKey, jsStr, hs, hre]
  · simp [authenticateBasicAuth, hre]
  · simp [authenticateBasicAuth, hre, Bool.and_false]

/-- Claim C3: text-extraction precedence — the extracted text is the
plain-text body when present (non-empty, since JS `||` treats the empty
string as absent), else the extended-text body when present, else the image
caption when present, else the empty string. -/
theorem text_extraction_precedence (c : MsgContent) :
    extractText c =
      if jsStr c.conversation then c.conversation.getD ""
      else if jsStr c.extendedText then c.extendedText.getD ""
      else if jsStr (c.imageMessage.bind ImageMessage.caption) then
        (c.imageMessage.bind ImageMessage.caption).getD ""
      else "" := by
  simp only [extractText, jsOrStr_eq]

/-- Claim C2: fail-open media — an inbound image event whose download raises
an error is still persisted, with `mediaType = 'text'`, a null media
reference, and its (non-empty) text equal to the caption that was present;
the ingestion result is `some`, so capture never fails solely because the
download failed. -/
theorem media_download_fail_open (msg : InboundMsg) (c : MsgContent)
    (im : ImageMessage) (cap : String) (assignedId : Nat)
    (hc : msg.content = some c) (hfm : msg.key.fromMe = false)
    (him : c.imageMessage = some im) (hcap : im.caption = some cap)
    (hconv : c.conversation = none) (hext : c.extendedText = none)
    (hne : cap ≠ "") :
    ∃ r, ingestMessage msg false assignedId = some r ∧
      r.mediaType = "text" ∧ r.mediaUrl = none ∧ r.text = cap ∧ r.text ≠ "" := by
  have hcape : cap.isEmpty = false :=
    Bool.eq_false_iff.mpr (fun h => hne ((String.isEmpty_iff cap).mp h))
  have htext : extractText c = cap := by
    simp [extractText, jsOrStr, hconv, hext, him, hcap, hcape]
  refine ⟨{ direction := "incoming", phone := resolveFrom msg.key,
            senderName := if jsStr msg.pushName then msg.pushName else none,
            text := cap, status := "unread", mediaType := "text",
            mediaUrl := none }, ?_, rfl, rfl, rfl, hne⟩
  simp [ingestMessage, hc, hfm, him, htext]

/-- Concrete instance of the fail-open media property. -/
theorem media_download_fail_open_witness :
    ∃ r, ingestMessage
        ⟨⟨some "15550001111@s.whatsapp.net", none, false⟩,
         some ⟨none, none, some ⟨some "a caption"⟩⟩, some "Alice"⟩ false 7 = some r ∧
      r.mediaType = "text" ∧ r.mediaUrl = none ∧ r.text = "a caption" ∧ r.text ≠ "" :=
  media_download_fail_open _ _ _ _ 7 rfl rfl rfl rfl rfl rfl (by decide)

theorem resolveFrom_characterisation (k : MsgKey) :
    resolveFrom k =
      match k.remoteJid, k.participant with
      | some sender, some p =>
          if strEndsWith sender "@lid" && containsSub p "@s.whatsapp.net" then some p
          else some sender
      | other, _ => other := by
  rcases k with ⟨jid, part, fm⟩
  cases jid with
  | none => rfl
  | some f =>
      by_cases hf : f.isEmpty = true
      · have hfe : f = "" := (String.isEmpty_iff f).mp hf
        subst hfe
        have hend : strEndsWith "" "@lid" = false := by decide
        cases part <;> simp [resolveFrom, hend]
      · cases part with
        | none =>
            by_cases hl : strEndsWith f "@lid" = true <;> simp [resolveFrom, hf, hl]
        | some p =>
            by_cases hl : strEndsWith f "@lid" = true
            · by_cases hp : p.isEmpty = true
              · have hpe : p = "" := (String.isEmpty_iff p).mp hp
                subst hpe
                have hcont : containsSub "" "@s.whatsapp.net" = false := by decide
                simp [resolveFrom, hf, hl, hcont]
              · by_cases hcont : containsSub p "@s.whatsapp.net" = true <;>
                  simp [resolveFrom, hf, hl, hp, hcont]
            · simp [resolveFrom, hf, hl]

/-- Claim C6: identity resolution — the persisted counterparty identity is
the participant address when the sender address ends in `@lid` and the
participant address is present and contains the canonical
`@s.whatsapp.net` marker, and the sender address as given otherwise. -/
theorem identity_resolution (msg : InboundMsg) (downloadOk : Bool)
    (assignedId : Nat) (r : StoredMessage)
    (h : ingestMessage msg downloadOk assignedId = some r) :
    r.phone =
      match msg.key.remoteJid, msg.key.participant with
      | some sender, some p =>
          if strEndsWith sender "@lid" && containsSub p "@s.whatsapp.net" then some p
          else some sender
      | other, _ => other := by
  have hphone : r.phone = resolveFrom msg.key := by
    rcases hm : msg.content with _ | c
    · simp only [ingestMessage, hm] at h
      exact Option.noConfusion h
    · simp only [ingestMessage, hm] at h
      split at h
      · exact Option.some.inj h ▸ rfl
      · exact Option.noConfusion h
  rw [hphone, resolveFrom_characterisation]

/-- Concrete instance of identity resolution: a `@lid` sender with a
canonical participant resolves to the participant. -/
theorem identity_resolution_witness :
    ({ direction := "incoming", phone := some "15550001111@s.whatsapp.net",
       senderName := none, text := "hi", status := "unread", mediaType := "text",
       mediaUrl := none } : StoredMessage).phone =
      match (some "777@lid" : Option String),
          (some "15550001111@s.whatsapp.net" : Option String) with
      | some sender, some p =>
          if strEndsWith sender "@lid" && containsSub p "@s.whatsapp.net" then some p
          else some sender
      | other, _ => other :=
  identity_resolution
    ⟨⟨some "777@lid", some "15550001111@s.whatsapp.net", false⟩,
     some ⟨some "hi", none, none⟩, none⟩ false 3
    { direction := "incoming", phone := some "15550001111@s.whatsapp.net",
      senderName := none, text := "hi", status := "unread", mediaType := "text",
      mediaUrl := none }
    (by decide)

/-- Claim C8: webhook dispatch is total and single-shot — for every url,
payload and fetch outcome it returns normally (never an error to the
invoker), issues exactly one POST with the 5000 ms timeout, logs a
non-success status as a warning and a success as info, and logs any
transport error as an error, with no retry. -/
theorem webhook_dispatch_total (url body : String) (o : FetchOutcome) :
    callWebhook url body o =
      Except.ok
        { requests := [⟨url, "POST", body, 5000⟩],
          logs := [match o with
                   | FetchOutcome.response st =>
                       if responseOk st then LogLevel.info else LogLevel.warn
                   | FetchOutcome.transportError _ => LogLevel.error] } := by
  cases o <;> rfl

/-- Claim C1 (counterexample): the invariant fails on a handler-reachable
state — after the initial connect, an `'open'` update on a socket without a
user id (`sock.user?.id` undefined) yields `status = Connected` with
`identity = null`, breaking the iff. -/
theorem connection_invariant_counterexample :
    Reachable noUserOpenState ∧ ¬ connInv noUserOpenState :=
  ⟨Reachable.step _ _ (Reachable.step _ _ Reachable.init), by decide⟩

/-- Claim C1 (amended): for every state reachable through the handlers in
which pairing tokens are only delivered while the connected flag is down and
every `'open'` signal carries a session user id, identity is non-null iff
the status is `Connected`, and pairing material is non-null only while the
status is `AwaitingPairing`. -/
theorem connection_invariant_amended (s : ConnState) (h : ReachableOk s) :
    connInv s := by
  induction h with
  | init => decide
  | connect t ht ih =>
      rcases t with ⟨c, ph, q, sl⟩
      exact ih
  | update t qr qrGenOk conn userId ht hqr hopen ih =>
      rcases conn with _ | sig
      · by_cases hset : (jsStr qr && qrGenOk) = true
        · have hq : jsStr qr = true := (Bool.and_eq_true _ _ ▸ hset).1
          have hc : t.connected = false := hqr hq
          have hpn : t.phone.isSome = false := phone_none_of_down t ih hc
          show connInv (applyUpdate t qr qrGenOk none userId)
          simp only [applyUpdate, hset, if_true]
          exact connInv_down _ hc hpn
        · show connInv (applyUpdate t qr qrGenOk none userId)
          simp only [applyUpdate, hset]
          simpa using ih
      · rcases sig with lo | _
        · show connInv (applyUpdate t qr qrGenOk (some (ConnSignal.closeSig lo)) userId)
          simp only [applyUpdate]
          cases lo with
          | true => exact connInv_down _ rfl rfl
          | false =>
              split <;> exact connInv_down _ rfl rfl
        · rcases Option.isSome_iff_exists.mp (hopen rfl) with ⟨u, hu⟩
          subst hu
          show connInv (applyUpdate t qr qrGenOk (some ConnSignal.openSig) (some u))
          simp only [applyUpdate]
          split <;> exact connInv_up _ rfl rfl rfl
  | logout t outcome reconnectFnSet ht ih =>
      show connInv (postLogout t outcome reconnectFnSet).1
      cases hsl : t.sockLive with
      | false =>
          simp only [postLogout, hsl, Bool.not_false, if_true]
          exact ih
      | true =>
          cases outcome with
          | ok =>
              simp only [postLogout, hsl, Bool.not_true, Bool.false_eq_true,
                if_false]
              exact connInv_down _ rfl rfl
          | throws =>
              simp only [postLogout, hsl, Bool.not_true, Bool.false_eq_true,
                if_false]
              exact ih

/-- Concrete instance of the amended invariant at a non-trivial reachable
state (connected socket awaiting pairing). -/
theorem connection_invariant_amended_witness : connInv pairingState :=
  connection_invariant_amended pairingState
    (ReachableOk.update _ (some "qr-token") true none none
      (ReachableOk.connect _ ReachableOk.init)
      (fun _ => rfl) (fun h => Option.noConfusion h))

/-- Claim C4 (counterexample): the POST /logout guard is the session handle,
not the connection status — at the reachable state left by a transient
close (status `Disconnected`, stale socket still set) the handler does not
answer 400: it invokes terminate, purges the session and schedules a
reconnection, answering 200. -/
theorem logout_guard_counterexample :
    Reachable staleSockState ∧
    staleSockState.status ≠ ConnStatus.Connected ∧
    (postLogout staleSockState LogoutOutcome.ok true).2.httpStatus = 200 ∧
    (postLogout staleSockState LogoutOutcome.ok true).2.terminateInvoked = true ∧
    (postLogout staleSockState LogoutOutcome.ok true).2.sessionPurged = true ∧
    (postLogout staleSockState LogoutOutcome.ok true).2.reconnectScheduled = true :=
  ⟨Reachable.step _ _ (Reachable.step _ _ (Reachable.step _ _ Reachable.init)),
   by decide⟩

/-- Claim C4 (amended): the 400 `Not connected` early return fires exactly
when the session handle is null — for every request arriving while
`whatsappState.sock` is null the handler answers 400 `Not connected`,
leaves the state unchanged, and neither invokes terminate, nor purges
session material, nor schedules a reconnection. -/
theorem logout_guard_amended (s : ConnState) (o : LogoutOutcome) (r : Bool)
    (h : s.sockLive = false) :
    postLogout s o r = (s, ⟨400, "Not connected", false, false, false⟩) := by
  simp [postLogout, h]

/-- Concrete instance of the amended logout guard. -/
theorem logout_guard_amended_witness :
    postLogout initState LogoutOutcome.ok true =
      (initState, ⟨400, "Not connected", false, false, false⟩) :=
  logout_guard_amended initState LogoutOutcome.ok true rfl

/-- Claim C5: when `sock.logout()` throws inside POST /logout, the handler
answers 500 with the generic `Logout failed` message and none of the
subsequent effects occur — the connection state is returned unchanged, the
session material is not purged, and no reconnection is scheduled. -/
theorem logout_terminate_failure (s : ConnState) (r : Bool)
    (h : s.sockLive = true) :
    postLogout s LogoutOutcome.throws r =
      (s, ⟨500, "Logout failed", true, false, false⟩) := by
  simp [postLogout, h]

/-- Concrete instance of the terminate-failure behaviour. -/
theorem logout_terminate_failure_witness :
    postLogout ⟨true, some "15551234567", none, true⟩ LogoutOutcome.throws false =
      (⟨true, some "15551234567", none, true⟩,
       ⟨500, "Logout failed", true, false, false⟩) :=
  logout_terminate_failure ⟨true, some "15551234567", none, true⟩ false rfl
